import Mathlib

/-!
Shallow embedding of the core of the `interviewer-app` repository
(`error_handlers.py`, `validators.py`, and the reset handler of
`interview.py`), together with theorems settling the frozen claims about
its specification.

Python strings are modelled as `String` / `List Char`; Python values that
can carry several runtime types (entries of `st.session_state`, user
settings) are modelled by the inductive `PVal`; Python `dict`s of such
values are association lists in insertion order.  Machine floats are
modelled as `Rat` (the program only ever compares and copies them).
-/

/-! ### Python string primitives

`pySpace` models the characters matched by the regex class `\s` and by
`str.strip()` for the ASCII range used throughout the program. -/

def pySpace (c : Char) : Bool :=
  c = ' ' || c = '\t' || c = '\n' || c = '\r' || c = '\x0b' || c = '\x0c'

/-- Model of Python `str.strip()` on a character list. -/
def pyStrip (s : List Char) : List Char :=
  ((s.dropWhile pySpace).reverse.dropWhile pySpace).reverse

/-- If `pat` begins the list `s`, return the remainder of `s` after it. -/
def dropPat? : List Char → List Char → Option (List Char)
  | [], s => some s
  | _ :: _, [] => none
  | p :: ps, c :: cs => if p = c then dropPat? ps cs else none

/-- Model of Python substring containment (`pat in s`). -/
def listContains (pat : List Char) : List Char → Bool
  | [] => (dropPat? pat []).isSome
  | c :: cs => (dropPat? pat (c :: cs)).isSome || listContains pat cs

/-! ### `error_handlers.safe_api_call`

The wrapped operation is modelled by its behaviour at each attempt
(0-based): at attempt `i` it either returns a value or raises an
exception, given by the exception's type name and message. -/

inductive CallOutcome (α : Type) where
  | success (v : α)
  | failure (errType : String) (errMsg : String)

inductive ApiResult (α : Type) where
  | ok (v : α)
  | error (msg : String)

/-- Observable behaviour of one `safe_api_call` invocation: the returned
value (or error dictionary, represented by its message), how many times
the wrapped operation was invoked, and the argument of each `time.sleep`
in order. -/
structure CallTrace (α : Type) where
  result : ApiResult α
  calls : Nat
  sleeps : List Nat

/-- The retry loop of `safe_api_call` (`error_handlers.py` lines 33-66).
`attempt` is the current 0-based loop index and `remaining` the number of
loop iterations left (`max_retries - attempt`); the Python guard
`attempt < max_retries - 1` corresponds to `0 < remaining` after this
iteration's own decrement.  The fuel-out case is the `return` after the
`for` loop. -/
def runAttempts {α : Type} (func : Nat → CallOutcome α) (retryDelay : Nat) :
    Nat → Nat → CallTrace α
  | _, 0 => ⟨.error "Maximum retry attempts reached.", 0, []⟩
  | attempt, remaining + 1 =>
    match func attempt with
    | .success v => ⟨.ok v, 1, []⟩
    | .failure etype emsg =>
      if listContains "RateLimitError".toList etype.toList then
        if 0 < remaining then
          let t := runAttempts func retryDelay (attempt + 1) remaining
          ⟨t.result, t.calls + 1, retryDelay * 2 ^ attempt :: t.sleeps⟩
        else
          ⟨.error "Rate limit exceeded. Please try again later.", 1, []⟩
      else if listContains "AuthenticationError".toList etype.toList then
        ⟨.error "API authentication failed. Please check your API key.", 1, []⟩
      else if listContains "Timeout".toList etype.toList then
        if 0 < remaining then
          let t := runAttempts func retryDelay (attempt + 1) remaining
          ⟨t.result, t.calls + 1, retryDelay :: t.sleeps⟩
        else
          ⟨.error "Request timed out. Please try again.", 1, []⟩
      else
        ⟨.error ("An error occurred: " ++ emsg), 1, []⟩

/-- `safe_api_call` with its hard-coded `max_retries = 3` and
`retry_delay = 1`. -/
def safe_api_call {α : Type} (func : Nat → CallOutcome α) : CallTrace α :=
  runAttempts func 1 0 3

/-! ### `APIResponseValidator._validate_evaluation_response`

The two regexes it uses, `rf"{field}:\s*(\d)"` and
`r"Feedback:\s*(.+)"` (the latter with `re.DOTALL`), are embedded
directly: `re.search` tries each start position from the left and stops
at the first full match. -/

/-- Match of the pattern `pat` (a metric name followed by `:`) then
`\s*(\d)` at the head of `s`.  The greedy `\s*` cannot backtrack
usefully here because `\d` never matches a whitespace character. -/
def scoreAt (pat : List Char) (s : List Char) : Option Nat :=
  match dropPat? pat s with
  | none => none
  | some rest =>
    match rest.dropWhile pySpace with
    | [] => none
    | c :: _ => if c.isDigit then some (c.toNat - '0'.toNat) else none

/-- Model of `re.search(rf"{field}:\s*(\d)", content)`, returning the
captured digit: the first start position with a full match wins. -/
def searchScore (pat : List Char) : List Char → Option Nat
  | [] => scoreAt pat []
  | c :: cs =>
    match scoreAt pat (c :: cs) with
    | some d => some d
    | none => searchScore pat cs

/-- Model of `re.search(r"Feedback:\s*(.+)", content, re.DOTALL)`: the
first start position at which `"Feedback:"` matches and is followed by
at least one character (required by `.+`); returns the tail after the
marker. -/
def searchFeedback (pat : List Char) : List Char → Option (List Char)
  | [] => none
  | c :: cs =>
    match dropPat? pat (c :: cs) with
    | some (r :: rest) => some (r :: rest)
    | _ => searchFeedback pat cs

/-- Capture group of `\s*(.+)` (DOTALL) applied to the nonempty tail
`rest` after the marker: the greedy `\s*` eats the leading whitespace,
backing off one character when `rest` is all whitespace so that `.+`
still matches. -/
def feedbackGroup (rest : List Char) : List Char :=
  let core := rest.dropWhile pySpace
  if core.isEmpty then rest.drop (rest.length - 1) else core

/-- `cleaned_response` dictionary built by
`_validate_evaluation_response`: metric scores in insertion order, the
feedback string, and the raw content. -/
structure EvalCleaned where
  scores : List (String × Nat)
  feedback : String
  raw_content : String

/-- The `validation_result` dictionary as returned for an `evaluation`
response. -/
structure EvalValidation where
  is_valid : Bool
  errors : List String
  warnings : List String
  cleaned_response : EvalCleaned

/-- `self.expected_evaluation_fields` (`validators.py` line 141). -/
def expected_evaluation_fields : List String :=
  ["Relevance", "Clarity", "Technical Accuracy", "Depth", "Communication"]

/-- The `for field in self.expected_evaluation_fields` loop
(`validators.py` lines 213-223): returns the missing-field list, the
scores mapping, and the out-of-range warnings, each in loop order. -/
def evalFieldsLoop (content : List Char) :
    List String → List String × List (String × Nat) × List String
  | [] => ([], [], [])
  | f :: fs =>
    let r := evalFieldsLoop content fs
    match searchScore (f.toList ++ [':']) content with
    | some d =>
      if 1 ≤ d ∧ d ≤ 5 then
        (r.1, (f, d) :: r.2.1, r.2.2)
      else
        (r.1, r.2.1,
          ("Score for " ++ f ++ " is out of range (1-5): " ++ toString d) :: r.2.2)
    | none => (f :: r.1, r.2.1, r.2.2)

/-- `_validate_evaluation_response` (`validators.py` lines 198-247),
applied to the fresh `validation_result` that
`validate_openai_response` passes it for a nonempty content
(`is_valid = true`, no errors, no warnings). -/
def validate_evaluation_response (content : String) : EvalValidation :=
  let cs := content.toList
  let r := evalFieldsLoop cs expected_evaluation_fields
  let missing := r.1
  let scores := r.2.1
  let w1 := r.2.2
  let w2 :=
    if missing.isEmpty then w1
    else w1 ++ ["Missing evaluation fields: " ++ String.intercalate ", " missing]
  let w3 :=
    if listContains "Feedback:".toList cs then w2
    else w2 ++ ["No feedback section found in evaluation"]
  match searchFeedback "Feedback:".toList cs with
  | some rest =>
    let fb := pyStrip (feedbackGroup rest)
    let w4 :=
      if fb.length < 10 then w3 ++ ["Feedback is very brief"]
      else if fb.length > 500 then w3 ++ ["Feedback is very long"]
      else w3
    ⟨true, [], w4, ⟨scores, String.mk fb, content⟩⟩
  | none => ⟨true, [], w3, ⟨scores, "", content⟩⟩

/-! ### `InputValidator.validate_text_input` and
`APIResponseValidator._validate_generic_response` -/

/-- The `validation_result` dictionary of `validate_text_input`. -/
structure TextValidation where
  is_valid : Bool
  errors : List String
  warnings : List String
  cleaned_text : String
  score : Nat

/-- `validate_text_input` (`validators.py` lines 54-84).  The
`input_type` argument does not influence the retained logic and is
omitted. -/
def validate_text_input (text : String) : TextValidation :=
  if text = "" || (pyStrip text.toList).isEmpty then
    ⟨false, ["Input cannot be empty"], [], text, 0⟩
  else
    ⟨true, [], [], text, 100⟩

/-- The `validation_result` dictionary of `_validate_generic_response`. -/
structure GenValidation where
  is_valid : Bool
  errors : List String
  warnings : List String
  cleaned_response : String

/-- Modelled from the spec: `APIResponseValidator._check_inappropriate_content`
is absent from the repository snapshot (only its call site at
`validators.py` lines 306-308 remains).  The spec describes it as a
content-appropriateness check that can only contribute warnings, so it
is kept abstract: a function from the content to a `has_issues` flag and
a warning list, over which all theorems quantify. -/
def checkInappropriate (chk : String → Bool × List String) (content : String) :
    Bool × List String :=
  chk content

/-- `_validate_generic_response` (`validators.py` lines 287-311), applied
to the fresh `validation_result` passed in by `validate_openai_response`
for a nonempty content; `self.min_response_length = 5`,
`self.max_response_length = 5000`. -/
def validate_generic_response (chk : String → Bool × List String)
    (content : String) : GenValidation :=
  let lenIssue : Bool × List String × List String :=
    if content.length < 5 then (false, ["Response is too short"], [])
    else if content.length > 5000 then (true, [], ["Response is very long"])
    else (true, [], [])
  let inap := checkInappropriate chk content
  let warnings := lenIssue.2.2 ++ (if inap.1 then inap.2 else [])
  ⟨lenIssue.1, lenIssue.2.1, warnings, String.mk (pyStrip content.toList)⟩

/-! ### Python runtime values

`PVal` models the Python values the validators inspect dynamically.
Python's `bool` is a subtype of `int`, so `isinstance(x, int)` and
numeric comparisons treat `vbool` as 0/1. -/

inductive PVal where
  | vint (n : Int)
  | vfloat (q : Rat)
  | vbool (b : Bool)
  | vstr (s : String)
  | vlist (xs : List PVal)
  | vdict (kvs : List (String × PVal))

/-- `isinstance(x, int)` (accepting `bool`, as Python does), together
with the integer value used in comparisons. -/
def PVal.intLike : PVal → Option Int
  | .vint n => some n
  | .vbool b => some (if b then 1 else 0)
  | _ => none

/-- `isinstance(x, (int, float))` with the numeric value used in
comparisons. -/
def PVal.numLike : PVal → Option Rat
  | .vint n => some (n : Rat)
  | .vfloat q => some q
  | .vbool b => some (if b then 1 else 0)
  | _ => none

/-- Python truthiness of a value. -/
def PVal.truthy : PVal → Bool
  | .vint n => n != 0
  | .vfloat q => q != 0
  | .vbool b => b
  | .vstr s => s != ""
  | .vlist xs => !xs.isEmpty
  | .vdict kvs => !kvs.isEmpty

/-! ### `ConfigValidator.validate_user_settings`

The settings dictionary is modelled by its six recognised keys, each
optional (`settings.get(key)`); warnings and errors are modelled by one
constructor per `append` site, carrying the interpolated values. -/

structure Settings where
  difficulty : Option PVal
  temperature : Option PVal
  frequency_penalty : Option PVal
  presence_penalty : Option PVal
  top_p : Option PVal
  wordcount : Option PVal

inductive CfgNote where
  | invalidDifficulty (v : PVal)
  | temperatureNotNumber
  | temperatureOutOfRange (v : PVal)
  | penaltyNotNumber (name : String)
  | penaltyOutOfRange (name : String) (v : PVal)
  | topPNotNumber
  | topPOutOfRange (v : PVal)
  | wordCountNotInteger
  | wordCountOutOfRange (v : PVal)

/-- `difficulty not in self.valid_difficulty_levels` (Python `in` uses
`==`, which across types is plain equality here). -/
def isValidDifficulty : PVal → Bool
  | .vstr s => s == "Easy" || s == "Medium" || s == "Hard"
  | _ => false

/-- One numeric setting of `validate_user_settings` (the shape shared by
`temperature`, the two penalties and `top_p`): returns the corrected
value, the errors and the warnings it contributes.  Out-of-range values
are clamped to the violated bound, which Python assigns as a float. -/
def checkNumericSetting (low high : Rat) (notNum : CfgNote)
    (outRange : PVal → CfgNote) : Option PVal → Option PVal × List CfgNote × List CfgNote
  | none => (none, [], [])
  | some x =>
    match x.numLike with
    | none => (some x, [notNum], [])
    | some q =>
      if low ≤ q ∧ q ≤ high then (some x, [], [])
      else if q < low then (some (.vfloat low), [], [outRange x])
      else (some (.vfloat high), [], [outRange x])

/-- The `wordcount` check of `validate_user_settings` (`validators.py`
lines 430-437): type error or warning only, never a correction;
`self.valid_word_count_range = (50, 500)`. -/
def checkWordCount : Option PVal → List CfgNote × List CfgNote
  | none => ([], [])
  | some x =>
    match x.intLike with
    | none => ([CfgNote.wordCountNotInteger], [])
    | some n =>
      if 50 ≤ n ∧ n ≤ 500 then ([], [])
      else ([], [CfgNote.wordCountOutOfRange x])

/-- The result dictionary of `validate_user_settings`; the function
never sets `is_valid` to false, so the field is always `true`. -/
structure CfgValidation where
  is_valid : Bool
  errors : List CfgNote
  warnings : List CfgNote
  corrected_settings : Settings

/-- `validate_user_settings` (`validators.py` lines 368-438) with its
ranges `temperature ∈ [0, 1]`, penalties `∈ [0, 2]`, `top_p ∈ [0, 1]`,
`wordcount ∈ [50, 500]`.  Errors and warnings are listed in the
program's append order. -/
def validate_user_settings (s : Settings) : CfgValidation :=
  let dE : List CfgNote :=
    match s.difficulty with
    | none => []
    | some d => if d.truthy && !isValidDifficulty d then [.invalidDifficulty d] else []
  let t := checkNumericSetting 0 1 .temperatureNotNumber .temperatureOutOfRange s.temperature
  let f := checkNumericSetting 0 2 (.penaltyNotNumber "frequency_penalty")
    (.penaltyOutOfRange "frequency_penalty") s.frequency_penalty
  let p := checkNumericSetting 0 2 (.penaltyNotNumber "presence_penalty")
    (.penaltyOutOfRange "presence_penalty") s.presence_penalty
  let o := checkNumericSetting 0 1 .topPNotNumber .topPOutOfRange s.top_p
  let w := checkWordCount s.wordcount
  { is_valid := true
    errors := dE ++ t.2.1 ++ f.2.1 ++ p.2.1 ++ o.2.1 ++ w.1
    warnings := t.2.2 ++ f.2.2 ++ p.2.2 ++ o.2.2 ++ w.2
    corrected_settings :=
      { s with temperature := t.1, frequency_penalty := f.1,
               presence_penalty := p.1, top_p := o.1 } }

/-! ### `SessionStateValidator` and the reset handler

`st.session_state` is modelled by the keys the validator and the reset
handler inspect, each optional (absent = key not in the state), plus an
association list for all remaining keys. -/

structure SessionState where
  messages : Option PVal
  interview_started : Option PVal
  job_role : Option PVal
  query_count : Option PVal
  token_usage : Option PVal
  debug_mode : Option PVal
  extra : List (String × PVal)

/-- Validation notes (errors and warnings) of `validate_session_state`
and its two helpers, one constructor per `append` site, carrying the
values that Python interpolates into the message. -/
inductive VNote where
  | missingRequiredField (f : String)
  | messagesNotList
  | messageNotDict (i : Nat)
  | messageMissingRole (i : Nat)
  | messageUnexpectedRole (i : Nat) (role : PVal)
  | messageMissingContent (i : Nat)
  | messageContentNotString (i : Nat)
  | queryCountInvalid
  | tokenUsageNotDict
  | tokenUsageMissingField (f : String)
  | tokenUsageInvalidField (f : String) (v : PVal)

/-- `message["role"] not in ["system", "user", "assistant"]`. -/
def isKnownRole : PVal → Bool
  | .vstr s => s == "system" || s == "user" || s == "assistant"
  | _ => false

/-- Body of the `for i, message in enumerate(messages)` loop of
`_validate_messages` (`validators.py` lines 511-524): errors and
warnings for one message. -/
def validateMessage (i : Nat) : PVal → List VNote × List VNote
  | .vdict kvs =>
    let roleNotes : List VNote × List VNote :=
      match kvs.lookup "role" with
      | none => ([VNote.messageMissingRole i], [])
      | some r => if isKnownRole r then ([], []) else ([], [VNote.messageUnexpectedRole i r])
    let contentNotes : List VNote :=
      match kvs.lookup "content" with
      | none => [VNote.messageMissingContent i]
      | some (.vstr _) => []
      | some _ => [VNote.messageContentNotString i]
    (roleNotes.1 ++ contentNotes, roleNotes.2)
  | _ => ([VNote.messageNotDict i], [])

/-- The message loop of `_validate_messages`, from index `i`. -/
def validateMessagesFrom (i : Nat) : List PVal → List VNote × List VNote
  | [] => ([], [])
  | m :: ms =>
    let here := validateMessage i m
    let rest := validateMessagesFrom (i + 1) ms
    (here.1 ++ rest.1, here.2 ++ rest.2)

/-- `_validate_messages` (`validators.py` lines 497-526), given the
present `messages` value: errors and warnings. -/
def validateMessagesVal : PVal → List VNote × List VNote
  | .vlist ms => validateMessagesFrom 0 ms
  | _ => ([VNote.messagesNotList], [])

/-- One field check of `_validate_token_usage` (`validators.py` lines
542-553): `estimated_cost` accepts `int` or `float`, the token counts
accept `int` only; negative values warn. -/
def tokenUsageFieldNote (kvs : List (String × PVal)) (f : String) : List VNote :=
  match kvs.lookup f with
  | none => [VNote.tokenUsageMissingField f]
  | some v =>
    if f == "estimated_cost" then
      match v.numLike with
      | none => [VNote.tokenUsageInvalidField f v]
      | some q => if q < 0 then [VNote.tokenUsageInvalidField f v] else []
    else
      match v.intLike with
      | none => [VNote.tokenUsageInvalidField f v]
      | some n => if n < 0 then [VNote.tokenUsageInvalidField f v] else []

/-- `_validate_token_usage` (`validators.py` lines 528-555), given the
present `token_usage` value: errors and warnings. -/
def validateTokenUsageVal : PVal → List VNote × List VNote
  | .vdict kvs =>
    ([],
      tokenUsageFieldNote kvs "prompt_tokens" ++
      tokenUsageFieldNote kvs "completion_tokens" ++
      tokenUsageFieldNote kvs "total_tokens" ++
      tokenUsageFieldNote kvs "estimated_cost")
  | _ => ([VNote.tokenUsageNotDict], [])

/-- `query_count` corruption test of `validate_session_state`
(`validators.py` lines 484-488): present but not an `int`, or negative. -/
def queryCountCorrupted : Option PVal → Bool
  | none => false
  | some v =>
    match v.intLike with
    | none => true
    | some n => decide (n < 0)

/-- The result dictionary of `validate_session_state`.  The function
never sets `is_valid` to false, so the field is always `true`. -/
structure SessionValidation where
  is_valid : Bool
  errors : List VNote
  warnings : List VNote
  missing_fields : List String
  corrupted_fields : List String

/-- `validate_session_state` (`validators.py` lines 457-495);
`self.required_fields = ["messages", "interview_started", "job_role"]`. -/
def validate_session_state (s : SessionState) : SessionValidation :=
  let missing :=
    (if s.messages.isNone then ["messages"] else []) ++
    (if s.interview_started.isNone then ["interview_started"] else []) ++
    (if s.job_role.isNone then ["job_role"] else [])
  let missingWarnings := missing.map VNote.missingRequiredField
  let msgNotes :=
    match s.messages with
    | none => ([], [])
    | some m => validateMessagesVal m
  let qcNotes : List VNote × List String :=
    if queryCountCorrupted s.query_count then ([VNote.queryCountInvalid], ["query_count"])
    else ([], [])
  let tuNotes :=
    match s.token_usage with
    | none => ([], [])
    | some t => validateTokenUsageVal t
  { is_valid := true
    errors := msgNotes.1 ++ tuNotes.1
    warnings := missingWarnings ++ msgNotes.2 ++ qcNotes.1 ++ tuNotes.2
    missing_fields := missing
    corrupted_fields := qcNotes.2 }

/-- The result dictionary of `repair_session_state`. -/
structure RepairResult where
  repaired : Bool
  actions_taken : List String

/-- The default `token_usage` block installed by the repair
(`validators.py` lines 594-599). -/
def defaultTokenUsage : PVal :=
  .vdict [("prompt_tokens", .vint 0), ("completion_tokens", .vint 0),
          ("total_tokens", .vint 0), ("estimated_cost", .vfloat 0)]

/-- `isinstance(st.session_state.token_usage, dict)`. -/
def PVal.isDict : PVal → Bool
  | .vdict _ => true
  | _ => false

/-- `repair_session_state` (`validators.py` lines 557-603).  Each of the
five repairs is independent of the others; actions are listed in the
program's order, and `repaired` is true exactly when at least one action
was taken. -/
def repair_session_state (s : SessionState) : SessionState × RepairResult :=
  let validation := validate_session_state s
  let m : Option PVal × List String :=
    match s.messages with
    | none => (some (.vlist []), ["Initialized empty messages list"])
    | some v => (some v, [])
  let i : Option PVal × List String :=
    match s.interview_started with
    | none => (some (.vbool false), ["Set interview_started to False"])
    | some v => (some v, [])
  let j : Option PVal × List String :=
    match s.job_role with
    | none => (some (.vstr ""), ["Initialized empty job_role"])
    | some v => (some v, [])
  let q : Option PVal × List String :=
    if "query_count" ∈ validation.corrupted_fields then
      (some (.vint 0), ["Reset query_count to 0"])
    else (s.query_count, [])
  let t : Option PVal × List String :=
    match s.token_usage with
    | some (.vdict kvs) => (some (.vdict kvs), [])
    | _ => (some defaultTokenUsage, ["Reset token_usage to default values"])
  let acts := m.2 ++ i.2 ++ j.2 ++ q.2 ++ t.2
  ({ s with messages := m.1, interview_started := i.1, job_role := j.1,
            query_count := q.1, token_usage := t.1 },
   { repaired := !acts.isEmpty, actions_taken := acts })

/-- The Reset Interview handler (`interview.py` lines 677-693): delete
every session key except `debug_mode` and `token_usage`, then
reinitialise `interview_started`, `messages` and `query_count`. -/
def resetInterview (s : SessionState) : SessionState :=
  { messages := some (.vlist [])
    interview_started := some (.vbool false)
    job_role := none
    query_count := some (.vint 0)
    token_usage := s.token_usage
    debug_mode := s.debug_mode
    extra := [] }

/-- Spec-side reading of "the text following the marker": the tail of
`s` after the first occurrence of `pat`, if `pat` occurs at all.  Used
only to state claims; the code's behaviour is `searchFeedback`. -/
def afterFirst (pat : List Char) : List Char → Option (List Char)
  | [] => dropPat? pat []
  | c :: cs =>
    match dropPat? pat (c :: cs) with
    | some r => some r
    | none => afterFirst pat cs

/-! ## Helper lemmas -/

theorem dropPat?_length {pat : List Char} :
    ∀ {s r : List Char}, dropPat? pat s = some r → s.length = pat.length + r.length := by
  induction pat with
  | nil => intro s r h; simp [dropPat?] at h; simp [h]
  | cons p ps ih =>
    intro s r h
    cases s with
    | nil => simp [dropPat?] at h
    | cons c cs =>
      simp only [dropPat?] at h
      split at h
      · have := ih h
        simp [List.length_cons, this]
        omega
      · exact absurd h (by simp)

theorem dropPat?_none_of_short {pat s : List Char} (h : s.length < pat.length) :
    dropPat? pat s = none := by
  cases hd : dropPat? pat s with
  | none => rfl
  | some r =>
    have := dropPat?_length hd
    omega

theorem searchFeedback_none_of_short {pat : List Char} :
    ∀ {s : List Char}, s.length < pat.length → searchFeedback pat s = none := by
  intro s
  induction s with
  | nil => intro _; rfl
  | cons c cs ih =>
    intro h
    have hd : dropPat? pat (c :: cs) = none := dropPat?_none_of_short h
    have hcs : cs.length < pat.length := by simp at h; omega
    simp only [searchFeedback, hd]
    exact ih hcs

theorem searchFeedback_eq_afterFirst {pat : List Char} (hp : pat ≠ []) :
    ∀ s : List Char, searchFeedback pat s =
      match afterFirst pat s with
      | some (c :: r) => some (c :: r)
      | _ => none := by
  intro s
  induction s with
  | nil =>
    have : dropPat? pat [] = none := by
      cases pat with
      | nil => exact absurd rfl hp
      | cons p ps => rfl
    simp [searchFeedback, afterFirst, this]
  | cons c cs ih =>
    cases hd : dropPat? pat (c :: cs) with
    | some r =>
      cases r with
      | nil =>
        have hlen := dropPat?_length hd
        have hcs : cs.length < pat.length := by simp at hlen; omega
        simp only [searchFeedback, afterFirst, hd]
        exact searchFeedback_none_of_short hcs
      | cons r0 rs => simp only [searchFeedback, afterFirst, hd]
    | none =>
      simp only [searchFeedback, afterFirst, hd]
      exact ih

theorem dropWhile_pySpace_idem (l : List Char) :
    (l.dropWhile pySpace).dropWhile pySpace = l.dropWhile pySpace := by
  induction l with
  | nil => rfl
  | cons c cs ih =>
    by_cases h : pySpace c
    · simp [List.dropWhile_cons, h, ih]
    · simp [List.dropWhile_cons, h]

theorem pyStrip_eq_nil_of_all {l : List Char} (h : ∀ c ∈ l, pySpace c) :
    pyStrip l = [] := by
  have h1 : l.dropWhile pySpace = [] := List.dropWhile_eq_nil_iff.2 h
  simp [pyStrip, h1]

theorem pyStrip_dropWhile (l : List Char) :
    pyStrip (l.dropWhile pySpace) = pyStrip l := by
  simp [pyStrip, dropWhile_pySpace_idem]

theorem pyStrip_feedbackGroup (rest : List Char) :
    pyStrip (feedbackGroup rest) = pyStrip rest := by
  unfold feedbackGroup
  by_cases h : (rest.dropWhile pySpace).isEmpty
  · have hall : ∀ c ∈ rest, pySpace c :=
      List.dropWhile_eq_nil_iff.1 (List.isEmpty_iff.1 h)
    have h1 : pyStrip rest = [] := pyStrip_eq_nil_of_all hall
    have h2 : pyStrip (rest.drop (rest.length - 1)) = [] :=
      pyStrip_eq_nil_of_all fun c hc => hall c (List.mem_of_mem_drop hc)
    simp [h, h1, h2]
  · simp only [h, if_false, Bool.false_eq_true]
    exact pyStrip_dropWhile rest

theorem evalFieldsLoop_scores_mem (content : List Char) :
    ∀ (fields : List String) (f : String) (d : Nat),
      (f, d) ∈ (evalFieldsLoop content fields).2.1 →
      searchScore (f.toList ++ [':']) content = some d ∧ 1 ≤ d ∧ d ≤ 5 := by
  intro fields
  induction fields with
  | nil => intro f d h; simp [evalFieldsLoop] at h
  | cons g gs ih =>
    intro f d h
    simp only [evalFieldsLoop] at h
    cases hs : searchScore (g.toList ++ [':']) content with
    | some e =>
      simp only [hs] at h
      by_cases hr : 1 ≤ e ∧ e ≤ 5
      · rw [if_pos hr] at h
        simp only [List.mem_cons, Prod.mk.injEq] at h
        rcases h with ⟨hf, hd⟩ | hh
        · subst hf; subst hd; exact ⟨hs, hr⟩
        · exact ih f d hh
      · rw [if_neg hr] at h
        exact ih f d h
    | none =>
      simp only [hs] at h
      exact ih f d h

theorem evalFieldsLoop_missing_mem (content : List Char) :
    ∀ (fields : List String) (f : String), f ∈ fields →
      searchScore (f.toList ++ [':']) content = none →
      f ∈ (evalFieldsLoop content fields).1 := by
  intro fields
  induction fields with
  | nil => intro f h; simp at h
  | cons g gs ih =>
    intro f hf hn
    simp only [evalFieldsLoop]
    rcases List.mem_cons.1 hf with he | hm
    · subst he
      simp only [hn]
      exact List.mem_cons_self ..
    · cases hs : searchScore (g.toList ++ [':']) content with
      | some e =>
        simp only [hs]
        by_cases hr : 1 ≤ e ∧ e ≤ 5
        · rw [if_pos hr]; exact ih f hm hn
        · rw [if_neg hr]; exact ih f hm hn
      | none =>
        simp only [hs]
        exact List.mem_cons_of_mem _ (ih f hm hn)

theorem evalFieldsLoop_warning_mem (content : List Char) :
    ∀ (fields : List String) (f : String) (d : Nat), f ∈ fields →
      searchScore (f.toList ++ [':']) content = some d → ¬(1 ≤ d ∧ d ≤ 5) →
      ("Score for " ++ f ++ " is out of range (1-5): " ++ toString d) ∈
        (evalFieldsLoop content fields).2.2 := by
  intro fields
  induction fields with
  | nil => intro f d h; simp at h
  | cons g gs ih =>
    intro f d hf hs hr
    simp only [evalFieldsLoop]
    rcases List.mem_cons.1 hf with he | hm
    · subst he
      simp only [hs]
      rw [if_neg hr]
      exact List.mem_cons_self ..
    · cases hs2 : searchScore (g.toList ++ [':']) content with
      | some e =>
        simp only [hs2]
        by_cases hr2 : 1 ≤ e ∧ e ≤ 5
        · rw [if_pos hr2]; exact ih f d hm hs hr
        · rw [if_neg hr2]
          exact List.mem_cons_of_mem _ (ih f d hm hs hr)
      | none =>
        simp only [hs2]
        exact ih f d hm hs hr

theorem validate_evaluation_response_is_valid (content : String) :
    (validate_evaluation_response content).is_valid = true := by
  simp only [validate_evaluation_response]
  split <;> rfl

theorem validate_evaluation_response_errors (content : String) :
    (validate_evaluation_response content).errors = [] := by
  simp only [validate_evaluation_response]
  split <;> rfl

theorem validate_evaluation_response_scores (content : String) :
    (validate_evaluation_response content).cleaned_response.scores =
      (evalFieldsLoop content.toList expected_evaluation_fields).2.1 := by
  simp only [validate_evaluation_response]
  split <;> rfl

theorem validate_evaluation_response_feedback (content : String) :
    (validate_evaluation_response content).cleaned_response.feedback =
      match searchFeedback "Feedback:".toList content.toList with
      | some rest => String.mk (pyStrip (feedbackGroup rest))
      | none => "" := by
  simp only [validate_evaluation_response]
  split
  next rest h => rfl
  next h => rfl

theorem validate_evaluation_response_warning_of_loop (content : String) (w : String)
    (h : w ∈ (evalFieldsLoop content.toList expected_evaluation_fields).2.2) :
    w ∈ (validate_evaluation_response content).warnings := by
  simp only [validate_evaluation_response]
  repeat' split
  all_goals simp only [List.mem_append, List.mem_singleton]
  all_goals tauto

theorem validate_evaluation_response_missing_warning (content : String)
    (h : (evalFieldsLoop content.toList expected_evaluation_fields).1 ≠ []) :
    ("Missing evaluation fields: " ++
        String.intercalate ", " (evalFieldsLoop content.toList expected_evaluation_fields).1) ∈
      (validate_evaluation_response content).warnings := by
  have h2 : (evalFieldsLoop content.toList expected_evaluation_fields).1.isEmpty = false := by
    simpa [List.isEmpty_iff] using h
  simp only [validate_evaluation_response, h2, Bool.false_eq_true, if_false]
  repeat' split
  all_goals simp [List.mem_append]

theorem string_append_ne_max_retries (m : String) :
    "An error occurred: " ++ m ≠ "Maximum retry attempts reached." := by
  intro h
  have h2 := congrArg String.data h
  simp [String.data_append] at h2

theorem runAttempts_result_cases {α : Type} (func : Nat → CallOutcome α)
    (retryDelay : Nat) :
    ∀ remaining attempt : Nat, 0 < remaining →
      (∃ k v, func k = .success v ∧
        (runAttempts func retryDelay attempt remaining).result = .ok v) ∨
      (runAttempts func retryDelay attempt remaining).result =
        .error "Rate limit exceeded. Please try again later." ∨
      (runAttempts func retryDelay attempt remaining).result =
        .error "API authentication failed. Please check your API key." ∨
      (runAttempts func retryDelay attempt remaining).result =
        .error "Request timed out. Please try again." ∨
      ∃ m, (runAttempts func retryDelay attempt remaining).result =
        .error ("An error occurred: " ++ m) := by
  intro remaining
  induction remaining with
  | zero => intro attempt h; exact absurd h (by omega)
  | succ n ih =>
    intro attempt _
    simp only [runAttempts]
    cases hf : func attempt with
    | success v => exact Or.inl ⟨attempt, v, hf, rfl⟩
    | failure etype emsg =>
      by_cases hrl : listContains "RateLimitError".toList etype.toList = true
      · simp only [hrl, if_true]
        by_cases hn : 0 < n
        · simp only [hn, if_true]
          rcases ih (attempt + 1) hn with ⟨k, v, hk, hr⟩ | hr | hr | hr | ⟨m, hr⟩
          · exact Or.inl ⟨k, v, hk, hr⟩
          · exact Or.inr (Or.inl hr)
          · exact Or.inr (Or.inr (Or.inl hr))
          · exact Or.inr (Or.inr (Or.inr (Or.inl hr)))
          · exact Or.inr (Or.inr (Or.inr (Or.inr ⟨m, hr⟩)))
        · simp only [hn, if_false]
          tauto
      · simp only [hrl, if_false]
        by_cases hau : listContains "AuthenticationError".toList etype.toList = true
        · simp only [hau, if_true]
          tauto
        · simp only [hau, if_false]
          by_cases hti : listContains "Timeout".toList etype.toList = true
          · simp only [hti, if_true]
            by_cases hn : 0 < n
            · simp only [hn, if_true]
              rcases ih (attempt + 1) hn with ⟨k, v, hk, hr⟩ | hr | hr | hr | ⟨m, hr⟩
              · exact Or.inl ⟨k, v, hk, hr⟩
              · exact Or.inr (Or.inl hr)
              · exact Or.inr (Or.inr (Or.inl hr))
              · exact Or.inr (Or.inr (Or.inr (Or.inl hr)))
              · exact Or.inr (Or.inr (Or.inr (Or.inr ⟨m, hr⟩)))
            · simp only [hn, if_false]
              tauto
          · simp only [hti, if_false]
            exact Or.inr (Or.inr (Or.inr (Or.inr ⟨emsg, rfl⟩)))


/-- C10: for every operation and every pattern of raised errors,
`safe_api_call` (with its fixed `max_retries = 3`) returns either the
operation's successful value or one of the four typed error
dictionaries, and never reaches the final generic
"Maximum retry attempts reached." return after the loop. -/
theorem safe_api_call_exhaustive {α : Type} (func : Nat → CallOutcome α) :
    ((∃ k v, func k = .success v ∧ (safe_api_call func).result = .ok v) ∨
      (safe_api_call func).result =
        .error "Rate limit exceeded. Please try again later." ∨
      (safe_api_call func).result =
        .error "API authentication failed. Please check your API key." ∨
      (safe_api_call func).result =
        .error "Request timed out. Please try again." ∨
      ∃ m, (safe_api_call func).result = .error ("An error occurred: " ++ m)) ∧
    (safe_api_call func).result ≠ .error "Maximum retry attempts reached." := by
  have hc := runAttempts_result_cases func 1 3 0 (by omega)
  refine ⟨hc, ?_⟩
  rcases hc with ⟨k, v, _, hr⟩ | hr | hr | hr | ⟨m, hr⟩ <;>
    rw [show safe_api_call func = runAttempts func 1 0 3 from rfl, hr]
  · intro h; exact ApiResult.noConfusion h
  · intro h; simp at h
  · intro h; simp at h
  · intro h; simp at h
  · intro h
    exact string_append_ne_max_retries m (by injection h)

/-- C1: if the operation raises a rate-limit-classified error on its
first two invocations and returns `v` on the third, `safe_api_call`
(with `max_retries = 3`, `retry_delay = 1`) returns `v`, invokes the
operation exactly three times, and sleeps exactly twice, for
`1 * 2 ^ 0 = 1` second and then `1 * 2 ^ 1 = 2` seconds. -/
theorem safe_api_call_rate_limit_backoff {α : Type} (func : Nat → CallOutcome α)
    (t0 m0 t1 m1 : String) (v : α)
    (h0 : func 0 = .failure t0 m0)
    (h0r : listContains "RateLimitError".toList t0.toList = true)
    (h1 : func 1 = .failure t1 m1)
    (h1r : listContains "RateLimitError".toList t1.toList = true)
    (h2 : func 2 = .success v) :
    safe_api_call func = ⟨.ok v, 3, [1, 2]⟩ := by
  show runAttempts func 1 0 3 = ⟨.ok v, 3, [1, 2]⟩
  simp only [runAttempts, h0, h1, h2, h0r, h1r, if_true]
  norm_num

/-- Witness for C1 at a concrete operation failing twice with
`RateLimitError` and succeeding with `7` on the third attempt. -/
theorem safe_api_call_rate_limit_backoff_witness :
    safe_api_call
      (fun i => if i < 2 then CallOutcome.failure "RateLimitError" "limited"
                else CallOutcome.success 7) = ⟨.ok 7, 3, [1, 2]⟩ :=
  safe_api_call_rate_limit_backoff
    (fun i => if i < 2 then CallOutcome.failure "RateLimitError" "limited"
              else CallOutcome.success 7)
    "RateLimitError" "limited" "RateLimitError" "limited" 7
    rfl (by decide) rfl (by decide) rfl

/-- C2 counterexample: on the response text "Relevance: 9" the parser
does not keep the out-of-range digit 9 as the metric's score — the
warning is attached but the metric is dropped from the parsed scores,
which are empty. -/
theorem evaluation_out_of_range_counterexample :
    ("Score for Relevance is out of range (1-5): 9" ∈
      (validate_evaluation_response "Relevance: 9").warnings) ∧
    (validate_evaluation_response "Relevance: 9").cleaned_response.scores = [] := by
  constructor
  · decide
  · rfl

/-- C2 (amended): a metric whose first matched digit is outside 1-5
gets an out-of-range warning and is omitted from the parsed scores; the
value is neither kept nor clamped. -/
theorem evaluation_out_of_range_warns_and_drops (content : String) (f : String)
    (d : Nat) (hf : f ∈ expected_evaluation_fields)
    (hs : searchScore (f.toList ++ [':']) content.toList = some d)
    (hd : ¬(1 ≤ d ∧ d ≤ 5)) :
    ("Score for " ++ f ++ " is out of range (1-5): " ++ toString d) ∈
      (validate_evaluation_response content).warnings ∧
    ∀ x, (f, x) ∉ (validate_evaluation_response content).cleaned_response.scores := by
  constructor
  · exact validate_evaluation_response_warning_of_loop content _
      (evalFieldsLoop_warning_mem content.toList expected_evaluation_fields f d hf hs hd)
  · intro x hx
    rw [validate_evaluation_response_scores] at hx
    obtain ⟨hs2, hr2⟩ :=
      evalFieldsLoop_scores_mem content.toList expected_evaluation_fields f x hx
    rw [hs] at hs2
    exact hd (Option.some.inj hs2 ▸ hr2)

/-- Witness for the amended C2 at the concrete response "Relevance: 9". -/
theorem evaluation_out_of_range_warns_and_drops_witness :
    ("Score for Relevance is out of range (1-5): 9" ∈
      (validate_evaluation_response "Relevance: 9").warnings) ∧
    ("Relevance", 9) ∉
      (validate_evaluation_response "Relevance: 9").cleaned_response.scores := by
  have h := evaluation_out_of_range_warns_and_drops "Relevance: 9" "Relevance" 9
    (by decide) (by decide) (by decide)
  exact ⟨h.1, h.2 9⟩

/-- C3 counterexample: on a response missing the Relevance and Clarity
patterns, the missing metrics do not resolve to score 0 (they are absent
from the parsed scores), and a single aggregated warning is recorded
rather than one warning per missing metric. -/
theorem evaluation_missing_fields_counterexample :
    (validate_evaluation_response
        "Technical Accuracy: 3 Depth: 3 Communication: 3 Feedback: nice work overall").cleaned_response.scores =
      [("Technical Accuracy", 3), ("Depth", 3), ("Communication", 3)] ∧
    (validate_evaluation_response
        "Technical Accuracy: 3 Depth: 3 Communication: 3 Feedback: nice work overall").warnings =
      ["Missing evaluation fields: Relevance, Clarity"] ∧
    (validate_evaluation_response
        "Technical Accuracy: 3 Depth: 3 Communication: 3 Feedback: nice work overall").is_valid = true := by
  refine ⟨rfl, ?_, rfl⟩
  rfl

/-- C3 (amended): a metric whose pattern is absent is listed in the
missing fields, is omitted from the parsed scores (it does not resolve
to 0), one aggregated warning names all missing metrics, and `is_valid`
stays true. -/
theorem evaluation_missing_fields_behaviour (content : String) (f : String)
    (hf : f ∈ expected_evaluation_fields)
    (hs : searchScore (f.toList ++ [':']) content.toList = none) :
    f ∈ (evalFieldsLoop content.toList expected_evaluation_fields).1 ∧
    ("Missing evaluation fields: " ++
        String.intercalate ", "
          (evalFieldsLoop content.toList expected_evaluation_fields).1) ∈
      (validate_evaluation_response content).warnings ∧
    (∀ x, (f, x) ∉ (validate_evaluation_response content).cleaned_response.scores) ∧
    (validate_evaluation_response content).is_valid = true := by
  have hmem := evalFieldsLoop_missing_mem content.toList expected_evaluation_fields f hf hs
  refine ⟨hmem, ?_, ?_, validate_evaluation_response_is_valid content⟩
  · refine validate_evaluation_response_missing_warning content ?_
    intro h
    rw [h] at hmem
    simp at hmem
  · intro x hx
    rw [validate_evaluation_response_scores] at hx
    obtain ⟨hs2, _⟩ :=
      evalFieldsLoop_scores_mem content.toList expected_evaluation_fields f x hx
    rw [hs] at hs2
    exact Option.noConfusion hs2

/-- Witness for the amended C3 at a concrete response missing only the
Relevance pattern. -/
theorem evaluation_missing_fields_behaviour_witness :
    ("Missing evaluation fields: Relevance" ∈
      (validate_evaluation_response
        "Clarity: 3 Technical Accuracy: 3 Depth: 3 Communication: 3 Feedback: nice work overall").warnings) ∧
    ("Relevance", 0) ∉
      (validate_evaluation_response
        "Clarity: 3 Technical Accuracy: 3 Depth: 3 Communication: 3 Feedback: nice work overall").cleaned_response.scores := by
  have h := evaluation_missing_fields_behaviour
    "Clarity: 3 Technical Accuracy: 3 Depth: 3 Communication: 3 Feedback: nice work overall"
    "Relevance" (by decide) (by decide)
  exact ⟨h.2.1, h.2.2.1 0⟩

/-- C4: when the first match for each of the five metric patterns
carries a digit in 1-5 and the `Feedback:` marker occurs (with tail
`rest`), the parser returns `is_valid = true`, exactly the five metrics
with exactly those digits, and feedback equal to the text following the
marker, trimmed of surrounding whitespace. -/
theorem evaluation_happy_path (content : String) (d1 d2 d3 d4 d5 : Nat)
    (rest : List Char)
    (h1 : searchScore ("Relevance".toList ++ [':']) content.toList = some d1)
    (h1r : 1 ≤ d1 ∧ d1 ≤ 5)
    (h2 : searchScore ("Clarity".toList ++ [':']) content.toList = some d2)
    (h2r : 1 ≤ d2 ∧ d2 ≤ 5)
    (h3 : searchScore ("Technical Accuracy".toList ++ [':']) content.toList = some d3)
    (h3r : 1 ≤ d3 ∧ d3 ≤ 5)
    (h4 : searchScore ("Depth".toList ++ [':']) content.toList = some d4)
    (h4r : 1 ≤ d4 ∧ d4 ≤ 5)
    (h5 : searchScore ("Communication".toList ++ [':']) content.toList = some d5)
    (h5r : 1 ≤ d5 ∧ d5 ≤ 5)
    (hfb : afterFirst "Feedback:".toList content.toList = some rest) :
    (validate_evaluation_response content).is_valid = true ∧
    (validate_evaluation_response content).cleaned_response.scores =
      [("Relevance", d1), ("Clarity", d2), ("Technical Accuracy", d3),
       ("Depth", d4), ("Communication", d5)] ∧
    (validate_evaluation_response content).cleaned_response.feedback =
      String.mk (pyStrip rest) := by
  refine ⟨validate_evaluation_response_is_valid content, ?_, ?_⟩
  · rw [validate_evaluation_response_scores]
    simp only [expected_evaluation_fields, evalFieldsLoop, h1, h2, h3, h4, h5,
      if_pos h1r, if_pos h2r, if_pos h3r, if_pos h4r, if_pos h5r]
  · rw [validate_evaluation_response_feedback]
    have hne : ("Feedback:".toList : List Char) ≠ [] := by simp
    rw [searchFeedback_eq_afterFirst hne content.toList, hfb]
    cases rest with
    | nil => rfl
    | cons c cs =>
      simp only [pyStrip_feedbackGroup]

/-- Witness for C4 at a concrete well-formed evaluation response. -/
theorem evaluation_happy_path_witness :
    (validate_evaluation_response
        "Relevance: 4 Clarity: 5 Technical Accuracy: 3 Depth: 2 Communication: 1 Feedback: a fine and complete answer").is_valid = true ∧
    (validate_evaluation_response
        "Relevance: 4 Clarity: 5 Technical Accuracy: 3 Depth: 2 Communication: 1 Feedback: a fine and complete answer").cleaned_response.scores =
      [("Relevance", 4), ("Clarity", 5), ("Technical Accuracy", 3),
       ("Depth", 2), ("Communication", 1)] ∧
    (validate_evaluation_response
        "Relevance: 4 Clarity: 5 Technical Accuracy: 3 Depth: 2 Communication: 1 Feedback: a fine and complete answer").cleaned_response.feedback =
      "a fine and complete answer" := by
  have h := evaluation_happy_path
    "Relevance: 4 Clarity: 5 Technical Accuracy: 3 Depth: 2 Communication: 1 Feedback: a fine and complete answer"
    4 5 3 2 1 (" a fine and complete answer".toList)
    (by decide) (by decide) (by decide) (by decide) (by decide) (by decide)
    (by decide) (by decide) (by decide) (by decide) (by decide)
  exact ⟨h.1, h.2.1, h.2.2⟩

/-- C5 counterexample: `wordcount = 600` is outside `[50, 500]`, but the
corrected settings keep 600 rather than clamping it to 500; only a
warning is emitted. -/
theorem config_wordcount_not_clamped_counterexample :
    (validate_user_settings
        ⟨none, none, none, none, none, some (.vint 600)⟩).corrected_settings.wordcount =
      some (.vint 600) ∧
    (validate_user_settings
        ⟨none, none, none, none, none, some (.vint 600)⟩).warnings =
      [CfgNote.wordCountOutOfRange (.vint 600)] ∧
    (validate_user_settings
        ⟨none, none, none, none, none, some (.vint 600)⟩).errors = [] := by
  refine ⟨rfl, ?_, rfl⟩
  rfl

theorem checkNumericSetting_not_number {low high : Rat} {nn : CfgNote}
    {orr : PVal → CfgNote} {v : PVal} (h : v.numLike = none) :
    checkNumericSetting low high nn orr (some v) = (some v, [nn], []) := by
  simp [checkNumericSetting, h]

theorem checkNumericSetting_out_of_range {low high : Rat} {nn : CfgNote}
    {orr : PVal → CfgNote} {v : PVal} {q : Rat} (h : v.numLike = some q)
    (hr : ¬(low ≤ q ∧ q ≤ high)) :
    checkNumericSetting low high nn orr (some v) =
      (some (.vfloat (if q < low then low else high)), [], [orr v]) := by
  simp only [checkNumericSetting, h, if_neg hr]
  by_cases hl : q < low
  · rw [if_pos hl, if_pos hl]
  · rw [if_neg hl, if_neg hl]

theorem checkWordCount_not_integer {v : PVal} (h : v.intLike = none) :
    checkWordCount (some v) = ([CfgNote.wordCountNotInteger], []) := by
  simp [checkWordCount, h]

theorem checkWordCount_out_of_range {v : PVal} {n : Int} (h : v.intLike = some n)
    (hr : ¬(50 ≤ n ∧ n ≤ 500)) :
    checkWordCount (some v) = ([], [CfgNote.wordCountOutOfRange v]) := by
  simp [checkWordCount, h, hr]

/-- C5 (amended): a wrong-typed value for any of the five numeric
settings yields a hard error and no correction; an out-of-range value
yields a warning, and is clamped to the violated bound for
`temperature`, `frequency_penalty`, `presence_penalty` and `top_p`,
while `wordcount` is left unchanged (warned but not clamped). -/
theorem validate_user_settings_behaviour (s : Settings) :
    (∀ v, s.temperature = some v → v.numLike = none →
      CfgNote.temperatureNotNumber ∈ (validate_user_settings s).errors ∧
      (validate_user_settings s).corrected_settings.temperature = some v) ∧
    (∀ v q, s.temperature = some v → v.numLike = some q → ¬(0 ≤ q ∧ q ≤ 1) →
      CfgNote.temperatureOutOfRange v ∈ (validate_user_settings s).warnings ∧
      (validate_user_settings s).corrected_settings.temperature =
        some (.vfloat (if q < 0 then 0 else 1))) ∧
    (∀ v, s.frequency_penalty = some v → v.numLike = none →
      CfgNote.penaltyNotNumber "frequency_penalty" ∈ (validate_user_settings s).errors ∧
      (validate_user_settings s).corrected_settings.frequency_penalty = some v) ∧
    (∀ v q, s.frequency_penalty = some v → v.numLike = some q → ¬(0 ≤ q ∧ q ≤ 2) →
      CfgNote.penaltyOutOfRange "frequency_penalty" v ∈ (validate_user_settings s).warnings ∧
      (validate_user_settings s).corrected_settings.frequency_penalty =
        some (.vfloat (if q < 0 then 0 else 2))) ∧
    (∀ v, s.presence_penalty = some v → v.numLike = none →
      CfgNote.penaltyNotNumber "presence_penalty" ∈ (validate_user_settings s).errors ∧
      (validate_user_settings s).corrected_settings.presence_penalty = some v) ∧
    (∀ v q, s.presence_penalty = some v → v.numLike = some q → ¬(0 ≤ q ∧ q ≤ 2) →
      CfgNote.penaltyOutOfRange "presence_penalty" v ∈ (validate_user_settings s).warnings ∧
      (validate_user_settings s).corrected_settings.presence_penalty =
        some (.vfloat (if q < 0 then 0 else 2))) ∧
    (∀ v, s.top_p = some v → v.numLike = none →
      CfgNote.topPNotNumber ∈ (validate_user_settings s).errors ∧
      (validate_user_settings s).corrected_settings.top_p = some v) ∧
    (∀ v q, s.top_p = some v → v.numLike = some q → ¬(0 ≤ q ∧ q ≤ 1) →
      CfgNote.topPOutOfRange v ∈ (validate_user_settings s).warnings ∧
      (validate_user_settings s).corrected_settings.top_p =
        some (.vfloat (if q < 0 then 0 else 1))) ∧
    (∀ v, s.wordcount = some v → v.intLike = none →
      CfgNote.wordCountNotInteger ∈ (validate_user_settings s).errors ∧
      (validate_user_settings s).corrected_settings.wordcount = some v) ∧
    (∀ v n, s.wordcount = some v → v.intLike = some n → ¬(50 ≤ n ∧ n ≤ 500) →
      CfgNote.wordCountOutOfRange v ∈ (validate_user_settings s).warnings ∧
      (validate_user_settings s).corrected_settings.wordcount = some v) := by
  refine ⟨?_, ?_, ?_, ?_, ?_, ?_, ?_, ?_, ?_, ?_⟩
  · intro v hv hn
    simp only [validate_user_settings, hv, checkNumericSetting_not_number hn]
    refine ⟨?_, ?_⟩ <;> simp [List.mem_append]
  · intro v q hv hn hr
    simp only [validate_user_settings, hv, checkNumericSetting_out_of_range hn hr]
    refine ⟨?_, ?_⟩ <;> simp [List.mem_append]
  · intro v hv hn
    simp only [validate_user_settings, hv, checkNumericSetting_not_number hn]
    refine ⟨?_, ?_⟩ <;> simp [List.mem_append]
  · intro v q hv hn hr
    simp only [validate_user_settings, hv, checkNumericSetting_out_of_range hn hr]
    refine ⟨?_, ?_⟩ <;> simp [List.mem_append]
  · intro v hv hn
    simp only [validate_user_settings, hv, checkNumericSetting_not_number hn]
    refine ⟨?_, ?_⟩ <;> simp [List.mem_append]
  · intro v q hv hn hr
    simp only [validate_user_settings, hv, checkNumericSetting_out_of_range hn hr]
    refine ⟨?_, ?_⟩ <;> simp [List.mem_append]
  · intro v hv hn
    simp only [validate_user_settings, hv, checkNumericSetting_not_number hn]
    refine ⟨?_, ?_⟩ <;> simp [List.mem_append]
  · intro v q hv hn hr
    simp only [validate_user_settings, hv, checkNumericSetting_out_of_range hn hr]
    refine ⟨?_, ?_⟩ <;> simp [List.mem_append]
  · intro v hv hn
    simp only [validate_user_settings, hv, checkWordCount_not_integer hn]
    refine ⟨?_, ?_⟩ <;> simp [List.mem_append, hv]
  · intro v n hv hn hr
    simp only [validate_user_settings, hv, checkWordCount_out_of_range hn hr]
    refine ⟨?_, ?_⟩ <;> simp [List.mem_append, hv]

/-- Witness for the amended C5: `temperature = 1.7` is clamped to `1.0`
with a warning, and the wrong-typed `wordcount = "fifty"` yields a hard
error with no correction. -/
theorem validate_user_settings_behaviour_witness :
    (CfgNote.temperatureOutOfRange (.vfloat (17 / 10)) ∈
      (validate_user_settings
        ⟨none, some (.vfloat (17 / 10)), none, none, none, some (.vstr "fifty")⟩).warnings) ∧
    (validate_user_settings
        ⟨none, some (.vfloat (17 / 10)), none, none, none,
          some (.vstr "fifty")⟩).corrected_settings.temperature = some (.vfloat 1) ∧
    (CfgNote.wordCountNotInteger ∈
      (validate_user_settings
        ⟨none, some (.vfloat (17 / 10)), none, none, none, some (.vstr "fifty")⟩).errors) ∧
    (validate_user_settings
        ⟨none, some (.vfloat (17 / 10)), none, none, none,
          some (.vstr "fifty")⟩).corrected_settings.wordcount = some (.vstr "fifty") := by
  have h := validate_user_settings_behaviour
    ⟨none, some (.vfloat (17 / 10)), none, none, none, some (.vstr "fifty")⟩
  have ht := h.2.1 (.vfloat (17 / 10)) (17 / 10) rfl rfl (by norm_num)
  have hw := h.2.2.2.2.2.2.2.2.1 (.vstr "fifty") rfl rfl
  refine ⟨ht.1, ?_, hw.1, hw.2⟩
  rw [ht.2]
  norm_num

theorem mem_corrupted_iff (s : SessionState) :
    "query_count" ∈ (validate_session_state s).corrupted_fields ↔
      queryCountCorrupted s.query_count = true := by
  simp only [validate_session_state]
  by_cases h : queryCountCorrupted s.query_count
  · simp [h]
  · simp [h]

/-- C6: for a session record missing `messages`, with `query_count = -5`
and with the remaining required fields and the usage-counter block
present and well-typed, repair installs the empty conversation and a
zero counter, reports `repaired = true` and logs exactly the two
corresponding actions. -/
theorem repair_restores_messages_and_query_count (s : SessionState)
    (hm : s.messages = none)
    (hq : s.query_count = some (.vint (-5)))
    (hi : ∃ b, s.interview_started = some (.vbool b))
    (hj : ∃ r, s.job_role = some (.vstr r))
    (ht : ∃ kvs, s.token_usage = some (.vdict kvs)) :
    (repair_session_state s).1.messages = some (.vlist []) ∧
    (repair_session_state s).1.query_count = some (.vint 0) ∧
    (repair_session_state s).2.repaired = true ∧
    (repair_session_state s).2.actions_taken =
      ["Initialized empty messages list", "Reset query_count to 0"] := by
  obtain ⟨b, hi⟩ := hi
  obtain ⟨r, hj⟩ := hj
  obtain ⟨kvs, ht⟩ := ht
  have hcorr : "query_count" ∈ (validate_session_state s).corrupted_fields := by
    rw [mem_corrupted_iff]
    rw [hq]
    rfl
  simp only [repair_session_state, hm, hi, hj, ht, if_pos hcorr]
  refine ⟨?_, ?_, ?_, ?_⟩ <;> trivial

/-- Witness for C6 at a concrete session record. -/
theorem repair_restores_messages_and_query_count_witness :
    (repair_session_state
        ⟨none, some (.vbool true), some (.vstr "Engineer"), some (.vint (-5)),
          some (.vdict [("prompt_tokens", .vint 12), ("completion_tokens", .vint 8),
            ("total_tokens", .vint 20), ("estimated_cost", .vfloat 0)]),
          none, []⟩).1.messages = some (.vlist []) ∧
    (repair_session_state
        ⟨none, some (.vbool true), some (.vstr "Engineer"), some (.vint (-5)),
          some (.vdict [("prompt_tokens", .vint 12), ("completion_tokens", .vint 8),
            ("total_tokens", .vint 20), ("estimated_cost", .vfloat 0)]),
          none, []⟩).1.query_count = some (.vint 0) ∧
    (repair_session_state
        ⟨none, some (.vbool true), some (.vstr "Engineer"), some (.vint (-5)),
          some (.vdict [("prompt_tokens", .vint 12), ("completion_tokens", .vint 8),
            ("total_tokens", .vint 20), ("estimated_cost", .vfloat 0)]),
          none, []⟩).2.repaired = true ∧
    (repair_session_state
        ⟨none, some (.vbool true), some (.vstr "Engineer"), some (.vint (-5)),
          some (.vdict [("prompt_tokens", .vint 12), ("completion_tokens", .vint 8),
            ("total_tokens", .vint 20), ("estimated_cost", .vfloat 0)]),
          none, []⟩).2.actions_taken =
      ["Initialized empty messages list", "Reset query_count to 0"] :=
  repair_restores_messages_and_query_count _ rfl rfl ⟨true, rfl⟩
    ⟨"Engineer", rfl⟩
    ⟨[("prompt_tokens", .vint 12), ("completion_tokens", .vint 8),
      ("total_tokens", .vint 20), ("estimated_cost", .vfloat 0)], rfl⟩

theorem repair_session_state_noop (s : SessionState)
    (hm : ∃ v, s.messages = some v)
    (hi : ∃ v, s.interview_started = some v)
    (hj : ∃ v, s.job_role = some v)
    (hq : queryCountCorrupted s.query_count = false)
    (ht : ∃ kvs, s.token_usage = some (.vdict kvs)) :
    repair_session_state s = (s, ⟨false, []⟩) := by
  obtain ⟨mv, hm⟩ := hm
  obtain ⟨iv, hi⟩ := hi
  obtain ⟨jv, hj⟩ := hj
  obtain ⟨kvs, ht⟩ := ht
  have hmem : ¬("query_count" ∈ (validate_session_state s).corrupted_fields) := by
    rw [mem_corrupted_iff, hq]
    simp
  simp only [repair_session_state, hm, hi, hj, ht, if_neg hmem]
  rw [← hm, ← hi, ← hj, ← ht]
  rfl

theorem repair_state_messages_present (s : SessionState) :
    ∃ v, (repair_session_state s).1.messages = some v := by
  simp only [repair_session_state]
  cases hm : s.messages
  · exact ⟨_, rfl⟩
  · exact ⟨_, rfl⟩

theorem repair_state_started_present (s : SessionState) :
    ∃ v, (repair_session_state s).1.interview_started = some v := by
  simp only [repair_session_state]
  cases hi : s.interview_started
  · exact ⟨_, rfl⟩
  · exact ⟨_, rfl⟩

theorem repair_state_job_role_present (s : SessionState) :
    ∃ v, (repair_session_state s).1.job_role = some v := by
  simp only [repair_session_state]
  cases hj : s.job_role
  · exact ⟨_, rfl⟩
  · exact ⟨_, rfl⟩

theorem repair_state_query_count_ok (s : SessionState) :
    queryCountCorrupted (repair_session_state s).1.query_count = false := by
  simp only [repair_session_state]
  by_cases h : "query_count" ∈ (validate_session_state s).corrupted_fields
  · rw [if_pos h]
    rfl
  · rw [if_neg h]
    cases hc : queryCountCorrupted s.query_count
    · rfl
    · exact absurd ((mem_corrupted_iff s).2 hc) h

theorem repair_state_token_usage_dict (s : SessionState) :
    ∃ kvs, (repair_session_state s).1.token_usage = some (.vdict kvs) := by
  simp only [repair_session_state]
  cases ht : s.token_usage with
  | none => exact ⟨_, rfl⟩
  | some v => cases v <;> exact ⟨_, rfl⟩

/-- C7: repair is idempotent — a second application right after the
first leaves the record unchanged and takes no corrective action
(`repaired = false`, empty action log). -/
theorem repair_session_state_idempotent (s : SessionState) :
    repair_session_state (repair_session_state s).1 =
      ((repair_session_state s).1, ⟨false, []⟩) :=
  repair_session_state_noop _ (repair_state_messages_present s)
    (repair_state_started_present s) (repair_state_job_role_present s)
    (repair_state_query_count_ok s) (repair_state_token_usage_dict s)

/-- C8 counterexample: after a reset of a session whose usage counters
are nonzero, the conversation, started flag and turn counter are back at
their defaults, but the usage-counter block is preserved unchanged — it
is not back at its default value, refuting "every component of the
record, including the usage counters, is back at its default value". -/
theorem reset_keeps_usage_counters_counterexample :
    (resetInterview
        ⟨some (.vlist []), some (.vbool true), some (.vstr "Engineer"), some (.vint 3),
          some (.vdict [("prompt_tokens", .vint 700), ("completion_tokens", .vint 300),
            ("total_tokens", .vint 1000), ("estimated_cost", .vfloat 16)]),
          none, []⟩).messages = some (.vlist []) ∧
    (resetInterview
        ⟨some (.vlist []), some (.vbool true), some (.vstr "Engineer"), some (.vint 3),
          some (.vdict [("prompt_tokens", .vint 700), ("completion_tokens", .vint 300),
            ("total_tokens", .vint 1000), ("estimated_cost", .vfloat 16)]),
          none, []⟩).interview_started = some (.vbool false) ∧
    (resetInterview
        ⟨some (.vlist []), some (.vbool true), some (.vstr "Engineer"), some (.vint 3),
          some (.vdict [("prompt_tokens", .vint 700), ("completion_tokens", .vint 300),
            ("total_tokens", .vint 1000), ("estimated_cost", .vfloat 16)]),
          none, []⟩).query_count = some (.vint 0) ∧
    (resetInterview
        ⟨some (.vlist []), some (.vbool true), some (.vstr "Engineer"), some (.vint 3),
          some (.vdict [("prompt_tokens", .vint 700), ("completion_tokens", .vint 300),
            ("total_tokens", .vint 1000), ("estimated_cost", .vfloat 16)]),
          none, []⟩).token_usage =
      some (.vdict [("prompt_tokens", .vint 700), ("completion_tokens", .vint 300),
        ("total_tokens", .vint 1000), ("estimated_cost", .vfloat 16)]) ∧
    (resetInterview
        ⟨some (.vlist []), some (.vbool true), some (.vstr "Engineer"), some (.vint 3),
          some (.vdict [("prompt_tokens", .vint 700), ("completion_tokens", .vint 300),
            ("total_tokens", .vint 1000), ("estimated_cost", .vfloat 16)]),
          none, []⟩).token_usage ≠ some defaultTokenUsage := by
  refine ⟨rfl, rfl, rfl, rfl, ?_⟩
  intro h
  simp [resetInterview, defaultTokenUsage] at h

/-- C8 (amended): the reset handler reinitialises the conversation, the
started flag and the turn counter to their defaults and removes every
other session key, except that `debug_mode` and the usage-counter block
`token_usage` are preserved unchanged (the usage counters are not
reset). -/
theorem resetInterview_behaviour (s : SessionState) :
    (resetInterview s).messages = some (.vlist []) ∧
    (resetInterview s).interview_started = some (.vbool false) ∧
    (resetInterview s).query_count = some (.vint 0) ∧
    (resetInterview s).job_role = none ∧
    (resetInterview s).extra = [] ∧
    (resetInterview s).token_usage = s.token_usage ∧
    (resetInterview s).debug_mode = s.debug_mode :=
  ⟨rfl, rfl, rfl, rfl, rfl, rfl, rfl⟩

/-- C9 counterexample: the whitespace-only string of six spaces is
rejected by the user-input validator but accepted by the generic-kind
response parser (`is_valid = true`, no errors), because the generic
length check uses the raw, untrimmed length — refuting the claim that
both reject every whitespace-only input. -/
theorem generic_whitespace_accepted_counterexample :
    (validate_generic_response (fun _ => (false, [])) "      ").is_valid = true ∧
    (validate_generic_response (fun _ => (false, [])) "      ").errors = [] ∧
    (validate_generic_response (fun _ => (false, [])) "      ").cleaned_response = "" ∧
    (validate_text_input "      ").is_valid = false := by
  refine ⟨rfl, rfl, ?_, ?_⟩
  · rfl
  · rfl

/-- C9 (amended): the user-input validator rejects every empty or
whitespace-only input with an error; the generic-kind parser rejects
such an input only when its raw length is below 5, and accepts it as
valid with no errors once the raw length is at least 5.  The
content-appropriateness check (absent from the snapshot, modelled from
the spec) is quantified over, since its call site only adds warnings. -/
theorem empty_or_whitespace_input_validation (chk : String → Bool × List String)
    (text : String) (hws : ∀ c ∈ text.toList, pySpace c) :
    ((validate_text_input text).is_valid = false ∧
      "Input cannot be empty" ∈ (validate_text_input text).errors) ∧
    (text.length < 5 →
      (validate_generic_response chk text).is_valid = false ∧
      "Response is too short" ∈ (validate_generic_response chk text).errors) ∧
    (5 ≤ text.length →
      (validate_generic_response chk text).is_valid = true ∧
      (validate_generic_response chk text).errors = []) := by
  refine ⟨?_, ?_, ?_⟩
  · have hstrip : pyStrip text.data = [] := pyStrip_eq_nil_of_all hws
    simp [validate_text_input, hstrip]
  · intro hlen
    simp only [validate_generic_response, if_pos hlen]
    constructor <;> simp
  · intro hlen
    have hge : ¬(text.length < 5) := by omega
    simp only [validate_generic_response, if_neg hge]
    by_cases hl : text.length > 5000
    · simp only [if_pos hl]
      constructor <;> trivial
    · simp only [if_neg hl]
      constructor <;> trivial

/-- Witness for the amended C9 at the six-space string with a trivial
appropriateness check. -/
theorem empty_or_whitespace_input_validation_witness :
    ((validate_text_input "      ").is_valid = false ∧
      "Input cannot be empty" ∈ (validate_text_input "      ").errors) ∧
    ((validate_generic_response (fun _ => (false, [])) "      ").is_valid = true ∧
      (validate_generic_response (fun _ => (false, [])) "      ").errors = []) := by
  have h := empty_or_whitespace_input_validation (fun _ => (false, [])) "      "
    (by decide)
  exact ⟨h.1, h.2.2 (by decide)⟩
